import Mathlib

/-!
Shallow embedding of the freecurrencyapi-go client library.

Go `map[K]V` values are modelled as association lists `List (K × V)`;
reading a missing key yields the value type's zero value, as in Go.
Go `float64` is modelled by Lean's `Float` (both are IEEE 754 binary64);
the library never computes with rates, it only copies them.
The HTTP transport and the JSON codec are external collaborators of the
library: each endpoint operation is parameterized by the outcome of the
transport call and by the body decoder, exactly the two points where the
Go code calls out of the repository.
-/

/-- Go errors are interface values; the library declares two sentinel
errors with `errors.New` and otherwise passes foreign errors through
unchanged. `other` covers every non-sentinel error (transport failures,
context cancellation, JSON decode errors). -/
inductive GoError where
  | errUnauthorized
  | errInvalidStatusCode
  | other (msg : String)
deriving DecidableEq, Repr

/-- Sentinel `ErrUnauthorized = errors.New("unauthorized")`. -/
def ErrUnauthorized : GoError := GoError.errUnauthorized

/-- Sentinel `ErrInvalidStatusCode = errors.New("invalid status code")`. -/
def ErrInvalidStatusCode : GoError := GoError.errInvalidStatusCode

/-- Go `time.Time`, restricted to the calendar date it represents (the
only part the library uses, via `Format("2006-01-02")`). -/
structure GoTime where
  year : Nat
  month : Nat
  day : Nat
deriving DecidableEq, Repr

/-- The zero `time.Time` represents January 1 of year 1. -/
def GoTime.zeroValue : GoTime := ⟨1, 1, 1⟩

/-- Decimal digits of `n`, left-padded with zeros to width `w`, as Go's
zero-padded layout fields (`2006`, `01`, `02`) render a component. -/
def padNat (w : Nat) (n : Nat) : String :=
  let s := toString n
  String.mk (List.replicate (w - s.length) '0') ++ s

/-- Go `t.Format("2006-01-02")`: four-digit year, two-digit month and
day, dash-separated. -/
def GoTime.format (t : GoTime) : String :=
  padNat 4 t.year ++ "-" ++ padNat 2 t.month ++ "-" ++ padNat 2 t.day

/-- Query parameters: Go `map[string]string`, as an association list in
insertion order (all inserted keys are distinct string literals). -/
def Params := List (String × String)

/-- Read a Go map, returning the value type's zero value for a missing
key (also the behaviour of reading a nil map). -/
def goMapGet (m : List (String × α)) (k : String) (zero : α) : α :=
  match m.lookup k with
  | some v => v
  | none => zero

/- ## Request types and their encoders (requests source file) -/

structure LatestRequest where
  BaseCurrency : String
  Currencies : List String
deriving Repr

/-- Encoder of `LatestRequest`: `base_currency` when non-empty, then
`currencies` joined with a comma when the list is non-empty
(`strings.Join(r.Currencies, ",")`). -/
def LatestRequest.toParams (r : LatestRequest) : List (String × String) :=
  (if r.BaseCurrency ≠ "" then [("base_currency", r.BaseCurrency)] else []) ++
  (if r.Currencies.length > 0 then
    [("currencies", String.intercalate "," r.Currencies)] else [])

structure CurrenciesRequest where
  Currencies : List String
deriving Repr

/-- Encoder of `CurrenciesRequest`: only the optional comma-joined
`currencies` entry. -/
def CurrenciesRequest.toParams (r : CurrenciesRequest) : List (String × String) :=
  if r.Currencies.length > 0 then
    [("currencies", String.intercalate "," r.Currencies)] else []

structure HistoricalRequest where
  Date : GoTime
  BaseCurrency : String
  Currencies : List String
deriving Repr

/-- Encoder of `HistoricalRequest`: the map literal always carries
`date` (formatted `2006-01-02`), then the two optional entries exactly
as in `LatestRequest.toParams`. -/
def HistoricalRequest.toParams (r : HistoricalRequest) : List (String × String) :=
  [("date", r.Date.format)] ++
  (if r.BaseCurrency ≠ "" then [("base_currency", r.BaseCurrency)] else []) ++
  (if r.Currencies.length > 0 then
    [("currencies", String.intercalate "," r.Currencies)] else [])

/- ## Response types (responses.go): wire shapes and public shapes -/

structure latestResponse where
  Data : List (String × Float)

structure LatestResponse where
  Rates : List (String × Float)

/-- `latestResponse.toLatestResponse`: the `data` map becomes `Rates`
unchanged. -/
def latestResponse.toLatestResponse (r : latestResponse) : LatestResponse :=
  { Rates := r.Data }

structure currencyResponseItem where
  Symbol : String
  Name : String
  SymbolNative : String
  DecimalDigits : Int
  Rounding : Int
  Code : String
  NamePlural : String

structure CurrencyItem where
  Symbol : String
  Name : String
  SymbolNative : String
  DecimalDigits : Int
  Rounding : Int
  Code : String
  NamePlural : String

structure currenciesResponse where
  Data : List (String × currencyResponseItem)

structure CurrenciesResponse where
  Currencies : List (String × CurrencyItem)

/-- Per-entry field copy inside `toCurrenciesResponse`. -/
def currencyResponseItem.toCurrencyItem (v : currencyResponseItem) : CurrencyItem :=
  { Symbol := v.Symbol
    Name := v.Name
    SymbolNative := v.SymbolNative
    DecimalDigits := v.DecimalDigits
    Rounding := v.Rounding
    Code := v.Code
    NamePlural := v.NamePlural }

/-- `currenciesResponse.toCurrenciesResponse`: rebuilds the map with
every value copied field by field. -/
def currenciesResponse.toCurrenciesResponse (r : currenciesResponse) : CurrenciesResponse :=
  { Currencies := r.Data.map (fun p => (p.1, p.2.toCurrencyItem)) }

structure historicalResponse where
  Data : List (String × List (String × Float))

structure HistoricalResponse where
  Rates : List (String × Float)

/-- The `for key := range r.Data { firstKey = key; break }` loop:
`""` when the map is empty, otherwise some key of the map (the first
entry in this embedding's iteration order). -/
def historicalResponse.firstKey (r : historicalResponse) : String :=
  match r.Data with
  | [] => ""
  | (k, _) :: _ => k

/-- `historicalResponse.toHistoricalResponse`: looks up the first
iterated key; on an empty map this reads key `""`, yielding the nil
rates map. -/
def historicalResponse.toHistoricalResponse (r : historicalResponse) : HistoricalResponse :=
  { Rates := goMapGet r.Data r.firstKey [] }

structure statusMonth where
  Total : Int
  Used : Int
  Remaining : Int

structure statusQuotas where
  Month : statusMonth

structure statusResponse where
  Quotas : statusQuotas

structure StatusItem where
  Total : Int
  Used : Int
  Remaining : Int

structure StatusResponse where
  Month : StatusItem

/-- `statusResponse.toStatusResponse`: copies the three quota fields. -/
def statusResponse.toStatusResponse (r : statusResponse) : StatusResponse :=
  { Month :=
    { Total := r.Quotas.Month.Total
      Used := r.Quotas.Month.Used
      Remaining := r.Quotas.Month.Remaining } }

/- ## Client construction (freecurrencyapi_v2.go) -/

/-- A `*http.Client` value, opaquely: either Go's `http.DefaultClient`
or some other client, distinguished only by identity. `Option` of this
type models a possibly-nil pointer. -/
inductive HttpClientRef where
  | defaultClient
  | custom (id : Nat)
deriving DecidableEq, Repr

/-- `ClientOption` with its two override fields; `HTTPClient` is a
possibly-nil pointer, `BaseURL` a string. -/
structure ClientOption where
  HTTPClient : Option HttpClientRef
  BaseURL : String
deriving DecidableEq, Repr

/-- `Options()` returns a fresh zero-valued `ClientOption`. -/
def Options : ClientOption := ⟨none, ""⟩

/-- Modelled from the spec: the `BaseUrl` constant (the service's
production root) is declared in a repository file not present under
src/; the spec says the base URL "defaults to the service's production
root". Its exact text is immaterial to every claim below. -/
def BaseUrl : String := "https://api.freecurrencyapi.com/v1/"

structure v2Client where
  apiKey : String
  httpClient : HttpClientRef
  baseURL : String
deriving DecidableEq, Repr

/-- `NewClient(apiKey, opts...)`: takes `opts[0]` when present and
non-nil, otherwise `Options()`; then fills a nil `HTTPClient` with
`http.DefaultClient` and an empty `BaseURL` with `BaseUrl`. -/
def NewClient (apiKey : String) (opts : List (Option ClientOption)) : v2Client :=
  let opt : ClientOption :=
    match opts with
    | some o :: _ => o
    | _ => Options
  let httpClient : HttpClientRef :=
    match opt.HTTPClient with
    | some c => c
    | none => HttpClientRef.defaultClient
  let baseURL : String :=
    if opt.BaseURL = "" then BaseUrl else opt.BaseURL
  { apiKey := apiKey, httpClient := httpClient, baseURL := baseURL }

/- ## Endpoint operations (freecurrencyapi_v2.go) -/

/-- An `*http.Response` as far as the library inspects it: the status
code and the raw body bytes. -/
structure HttpResp where
  statusCode : Nat
  body : String

/-- `v2Client.Latest`: `res` is the outcome of `v.doRequest` (either a
response or a transport-level error returned as-is) and `dec` is
`json.NewDecoder(res.Body).Decode` for the `latestResponse` shape. The
Go function returns the result-struct/error pair. -/
def v2Client.Latest (res : Except GoError HttpResp)
    (dec : String → Except GoError latestResponse) :
    LatestResponse × Option GoError :=
  match res with
  | .error err => (⟨[]⟩, some err)
  | .ok r =>
    if r.statusCode ≠ 200 then
      if r.statusCode = 401 then (⟨[]⟩, some ErrUnauthorized)
      else (⟨[]⟩, some ErrInvalidStatusCode)
    else
      match dec r.body with
      | .error err => (⟨[]⟩, some err)
      | .ok decoded => (decoded.toLatestResponse, none)

/-- `v2Client.Currencies`, same shape as `Latest` over the currencies
wire type. -/
def v2Client.Currencies (res : Except GoError HttpResp)
    (dec : String → Except GoError currenciesResponse) :
    CurrenciesResponse × Option GoError :=
  match res with
  | .error err => (⟨[]⟩, some err)
  | .ok r =>
    if r.statusCode ≠ 200 then
      if r.statusCode = 401 then (⟨[]⟩, some ErrUnauthorized)
      else (⟨[]⟩, some ErrInvalidStatusCode)
    else
      match dec r.body with
      | .error err => (⟨[]⟩, some err)
      | .ok decoded => (decoded.toCurrenciesResponse, none)

/-- `v2Client.Historical`, same shape over the historical wire type. -/
def v2Client.Historical (res : Except GoError HttpResp)
    (dec : String → Except GoError historicalResponse) :
    HistoricalResponse × Option GoError :=
  match res with
  | .error err => (⟨[]⟩, some err)
  | .ok r =>
    if r.statusCode ≠ 200 then
      if r.statusCode = 401 then (⟨[]⟩, some ErrUnauthorized)
      else (⟨[]⟩, some ErrInvalidStatusCode)
    else
      match dec r.body with
      | .error err => (⟨[]⟩, some err)
      | .ok decoded => (decoded.toHistoricalResponse, none)

/-- `v2Client.Status`, same shape over the status wire type (zero value
of `StatusResponse` spelled out). -/
def v2Client.Status (res : Except GoError HttpResp)
    (dec : String → Except GoError statusResponse) :
    StatusResponse × Option GoError :=
  match res with
  | .error err => (⟨⟨0, 0, 0⟩⟩, some err)
  | .ok r =>
    if r.statusCode ≠ 200 then
      if r.statusCode = 401 then (⟨⟨0, 0, 0⟩⟩, some ErrUnauthorized)
      else (⟨⟨0, 0, 0⟩⟩, some ErrInvalidStatusCode)
    else
      match dec r.body with
      | .error err => (⟨⟨0, 0, 0⟩⟩, some err)
      | .ok decoded => (decoded.toStatusResponse, none)

/- ## Recovery maps, witnessing that three of the four wire-to-public
mappings lose no information -/

/-- Inverse of the per-entry currency field copy. -/
def CurrencyItem.toWireItem (v : CurrencyItem) : currencyResponseItem :=
  { Symbol := v.Symbol
    Name := v.Name
    SymbolNative := v.SymbolNative
    DecimalDigits := v.DecimalDigits
    Rounding := v.Rounding
    Code := v.Code
    NamePlural := v.NamePlural }

/-- Recovers the latest wire value from the public value. -/
def LatestResponse.toWire (x : LatestResponse) : latestResponse :=
  { Data := x.Rates }

/-- Recovers the currencies wire value from the public value. -/
def CurrenciesResponse.toWire (x : CurrenciesResponse) : currenciesResponse :=
  { Data := x.Currencies.map (fun p => (p.1, p.2.toWireItem)) }

/-- Recovers the status wire value from the public value. -/
def StatusResponse.toWire (x : StatusResponse) : statusResponse :=
  { Quotas := { Month :=
    { Total := x.Month.Total
      Used := x.Month.Used
      Remaining := x.Month.Remaining } } }

/- ## Claim theorems -/

/-- C1: for every one of the four operations, a 401 response makes the
operation return the `ErrUnauthorized` sentinel paired with the
zero-valued result structure, for every response body and every
behaviour of the JSON decoder. -/
theorem unauthorized_sentinel_all_operations
    (b : String)
    (dL : String → Except GoError latestResponse)
    (dC : String → Except GoError currenciesResponse)
    (dH : String → Except GoError historicalResponse)
    (dS : String → Except GoError statusResponse) :
    v2Client.Latest (.ok ⟨401, b⟩) dL = (⟨[]⟩, some ErrUnauthorized)
    ∧ v2Client.Currencies (.ok ⟨401, b⟩) dC = (⟨[]⟩, some ErrUnauthorized)
    ∧ v2Client.Historical (.ok ⟨401, b⟩) dH = (⟨[]⟩, some ErrUnauthorized)
    ∧ v2Client.Status (.ok ⟨401, b⟩) dS = (⟨⟨0, 0, 0⟩⟩, some ErrUnauthorized) :=
  ⟨rfl, rfl, rfl, rfl⟩

/-- C2: for every one of the four operations, a response whose status
code is neither 200 nor 401 makes the operation return the
`ErrInvalidStatusCode` sentinel paired with the zero-valued result, for
every body and every decoder (the body is never parsed). -/
theorem invalid_status_sentinel_all_operations
    (c : Nat) (b : String) (h200 : c ≠ 200) (h401 : c ≠ 401)
    (dL : String → Except GoError latestResponse)
    (dC : String → Except GoError currenciesResponse)
    (dH : String → Except GoError historicalResponse)
    (dS : String → Except GoError statusResponse) :
    v2Client.Latest (.ok ⟨c, b⟩) dL = (⟨[]⟩, some ErrInvalidStatusCode)
    ∧ v2Client.Currencies (.ok ⟨c, b⟩) dC = (⟨[]⟩, some ErrInvalidStatusCode)
    ∧ v2Client.Historical (.ok ⟨c, b⟩) dH = (⟨[]⟩, some ErrInvalidStatusCode)
    ∧ v2Client.Status (.ok ⟨c, b⟩) dS = (⟨⟨0, 0, 0⟩⟩, some ErrInvalidStatusCode) := by
  refine ⟨?_, ?_, ?_, ?_⟩ <;>
    simp [v2Client.Latest, v2Client.Currencies, v2Client.Historical,
      v2Client.Status, h200, h401]

/-- Witness for C2 at status code 500 with an arbitrary body and a
decoder that would reject the body. -/
theorem invalid_status_sentinel_witness :
    v2Client.Latest (.ok ⟨500, "oops"⟩) (fun _ => .error (.other "bad json"))
      = (⟨[]⟩, some ErrInvalidStatusCode)
    ∧ v2Client.Currencies (.ok ⟨500, "oops"⟩) (fun _ => .error (.other "bad json"))
      = (⟨[]⟩, some ErrInvalidStatusCode)
    ∧ v2Client.Historical (.ok ⟨500, "oops"⟩) (fun _ => .error (.other "bad json"))
      = (⟨[]⟩, some ErrInvalidStatusCode)
    ∧ v2Client.Status (.ok ⟨500, "oops"⟩) (fun _ => .error (.other "bad json"))
      = (⟨⟨0, 0, 0⟩⟩, some ErrInvalidStatusCode) :=
  invalid_status_sentinel_all_operations 500 "oops" (by decide) (by decide) _ _ _ _

/-- C3: for every operation, an error produced by the transport is
returned exactly as produced with the zero-valued result, and a JSON
decode error on a 200 body is returned exactly as produced with the
zero-valued result. -/
theorem foreign_errors_propagate_verbatim
    (e : GoError) (b : String)
    (dL : String → Except GoError latestResponse)
    (dC : String → Except GoError currenciesResponse)
    (dH : String → Except GoError historicalResponse)
    (dS : String → Except GoError statusResponse)
    (eL eC eH eS : GoError)
    (hL : dL b = .error eL) (hC : dC b = .error eC)
    (hH : dH b = .error eH) (hS : dS b = .error eS) :
    (v2Client.Latest (.error e) dL = (⟨[]⟩, some e)
     ∧ v2Client.Currencies (.error e) dC = (⟨[]⟩, some e)
     ∧ v2Client.Historical (.error e) dH = (⟨[]⟩, some e)
     ∧ v2Client.Status (.error e) dS = (⟨⟨0, 0, 0⟩⟩, some e))
    ∧ (v2Client.Latest (.ok ⟨200, b⟩) dL = (⟨[]⟩, some eL)
     ∧ v2Client.Currencies (.ok ⟨200, b⟩) dC = (⟨[]⟩, some eC)
     ∧ v2Client.Historical (.ok ⟨200, b⟩) dH = (⟨[]⟩, some eH)
     ∧ v2Client.Status (.ok ⟨200, b⟩) dS = (⟨⟨0, 0, 0⟩⟩, some eS)) := by
  refine ⟨⟨rfl, rfl, rfl, rfl⟩, ?_, ?_, ?_, ?_⟩ <;>
    simp [v2Client.Latest, v2Client.Currencies, v2Client.Historical,
      v2Client.Status, hL, hC, hH, hS]

/-- Witness for C3 with a context-cancellation transport error and a
decoder failing with an unexpected-EOF decode error. -/
theorem foreign_errors_propagate_witness :
    (v2Client.Latest (.error (.other "context canceled"))
        (fun _ => .error (.other "unexpected EOF"))
      = (⟨[]⟩, some (.other "context canceled"))
     ∧ v2Client.Currencies (.error (.other "context canceled"))
        (fun _ => .error (.other "unexpected EOF"))
      = (⟨[]⟩, some (.other "context canceled"))
     ∧ v2Client.Historical (.error (.other "context canceled"))
        (fun _ => .error (.other "unexpected EOF"))
      = (⟨[]⟩, some (.other "context canceled"))
     ∧ v2Client.Status (.error (.other "context canceled"))
        (fun _ => .error (.other "unexpected EOF"))
      = (⟨⟨0, 0, 0⟩⟩, some (.other "context canceled")))
    ∧ (v2Client.Latest (.ok ⟨200, "truncated body"⟩) (fun _ => .error (.other "unexpected EOF"))
      = (⟨[]⟩, some (.other "unexpected EOF"))
     ∧ v2Client.Currencies (.ok ⟨200, "truncated body"⟩) (fun _ => .error (.other "unexpected EOF"))
      = (⟨[]⟩, some (.other "unexpected EOF"))
     ∧ v2Client.Historical (.ok ⟨200, "truncated body"⟩) (fun _ => .error (.other "unexpected EOF"))
      = (⟨[]⟩, some (.other "unexpected EOF"))
     ∧ v2Client.Status (.ok ⟨200, "truncated body"⟩) (fun _ => .error (.other "unexpected EOF"))
      = (⟨⟨0, 0, 0⟩⟩, some (.other "unexpected EOF"))) :=
  foreign_errors_propagate_verbatim (.other "context canceled") "truncated body"
    (fun _ => .error (.other "unexpected EOF"))
    (fun _ => .error (.other "unexpected EOF"))
    (fun _ => .error (.other "unexpected EOF"))
    (fun _ => .error (.other "unexpected EOF"))
    (.other "unexpected EOF") (.other "unexpected EOF")
    (.other "unexpected EOF") (.other "unexpected EOF")
    rfl rfl rfl rfl

/-- C10: `NewClient` reads only the first element of its options list;
a missing, nil, or zero-valued first option yields the default HTTP
client and the production base URL. -/
theorem newClient_first_option_and_defaults
    (key : String) (o : Option ClientOption) (rest : List (Option ClientOption)) :
    NewClient key (o :: rest) = NewClient key [o]
    ∧ NewClient key [] = ⟨key, .defaultClient, BaseUrl⟩
    ∧ NewClient key [none] = ⟨key, .defaultClient, BaseUrl⟩
    ∧ NewClient key [some Options] = ⟨key, .defaultClient, BaseUrl⟩ := by
  refine ⟨?_, rfl, rfl, rfl⟩
  cases o <;> rfl

/-- Shared helper: looking up `currencies` in the optional tail common
to the three request encoders, when the currency list is non-empty. -/
theorem lookup_currencies_tail (bc : String) (cs : List String) (hcs : cs ≠ []) :
    List.lookup "currencies"
      ((if bc ≠ "" then [("base_currency", bc)] else []) ++
       (if cs.length > 0 then [("currencies", String.intercalate "," cs)] else []))
      = some (String.intercalate "," cs) := by
  have hlen : cs.length > 0 := List.length_pos.mpr hcs
  by_cases hb : bc = "" <;> simp [hb, hlen, List.lookup]

/-- Shared helper: a head entry with a different literal key is skipped
by `List.lookup`. -/
theorem lookup_skip_date (v : String) (l : List (String × String)) :
    List.lookup "currencies" (("date", v) :: l) = List.lookup "currencies" l := rfl

/-- C4 counterexample: the historical wire-to-public mapping is not
1:1 — two distinct wire values (one date key versus two) map to the
same public value, so information is lost. -/
theorem wire_mapping_lossless_counterexample :
    historicalResponse.toHistoricalResponse ⟨[("2022-01-01", [])]⟩
      = historicalResponse.toHistoricalResponse
          ⟨[("2022-01-01", []), ("2022-01-02", [])]⟩
    ∧ (⟨[("2022-01-01", [])]⟩ : historicalResponse)
      ≠ ⟨[("2022-01-01", []), ("2022-01-02", [])]⟩ := by
  refine ⟨rfl, fun h => ?_⟩
  have h2 := congrArg (fun r => r.Data.length) h
  simp at h2

/-- C4 amended: the latest, currencies and status mappings copy their
wire data unchanged and lose nothing (each has a recovery map inverting
it), while the historical mapping projects the data map to its first
entry's rate map, discarding the date keys and any further dates. -/
theorem wire_mapping_amended
    (rL : latestResponse) (rC : currenciesResponse) (rS : statusResponse) :
    rL.toLatestResponse.Rates = rL.Data
    ∧ rL.toLatestResponse.toWire = rL
    ∧ rC.toCurrenciesResponse.Currencies
        = rC.Data.map (fun p => (p.1, p.2.toCurrencyItem))
    ∧ rC.toCurrenciesResponse.toWire = rC
    ∧ rS.toStatusResponse.Month.Total = rS.Quotas.Month.Total
    ∧ rS.toStatusResponse.Month.Used = rS.Quotas.Month.Used
    ∧ rS.toStatusResponse.Month.Remaining = rS.Quotas.Month.Remaining
    ∧ rS.toStatusResponse.toWire = rS
    ∧ (∀ (d : String) (m : List (String × Float))
        (t : List (String × List (String × Float))),
        historicalResponse.toHistoricalResponse ⟨(d, m) :: t⟩ = ⟨m⟩)
    ∧ historicalResponse.toHistoricalResponse ⟨[]⟩ = ⟨[]⟩ := by
  refine ⟨rfl, rfl, rfl, ?_, rfl, rfl, rfl, rfl, ?_, rfl⟩
  · cases rC with
    | mk Data =>
      simp only [currenciesResponse.toCurrenciesResponse,
        CurrenciesResponse.toWire, List.map_map]
      have hid : ((fun (p : String × CurrencyItem) => (p.1, p.2.toWireItem)) ∘
          (fun (p : String × currencyResponseItem) => (p.1, p.2.toCurrencyItem)))
          = id := funext fun p => rfl
      rw [hid, List.map_id]
  · intro d m t
    simp [historicalResponse.toHistoricalResponse, historicalResponse.firstKey,
      goMapGet, List.lookup]

/-- C5: a historical wire response whose data map holds exactly one
date key maps to a public response whose `Rates` is that date's
currency-to-rate map. -/
theorem historical_single_date_rates (r : historicalResponse)
    (d : String) (m : List (String × Float)) (h : r.Data = [(d, m)]) :
    r.toHistoricalResponse.Rates = m := by
  cases r with
  | mk Data =>
    cases h
    simp [historicalResponse.toHistoricalResponse, historicalResponse.firstKey,
      goMapGet, List.lookup]

/-- Witness for C5 on a one-date response. -/
theorem historical_single_date_rates_witness :
    (historicalResponse.toHistoricalResponse
      ⟨[("2022-09-04", [("EUR", 1.5)])]⟩).Rates = [("EUR", 1.5)] :=
  historical_single_date_rates ⟨[("2022-09-04", [("EUR", 1.5)])]⟩
    "2022-09-04" [("EUR", 1.5)] rfl

/-- C6: the historical request encoder always emits a `date` entry
holding the `YYYY-MM-DD` rendering of the request's date, and the zero
date renders as `0001-01-01`. -/
theorem historical_params_always_include_date (r : HistoricalRequest) :
    r.toParams.lookup "date" = some r.Date.format
    ∧ GoTime.zeroValue.format = "0001-01-01"
    ∧ (HistoricalRequest.toParams ⟨GoTime.zeroValue, "", []⟩).lookup "date"
      = some "0001-01-01" := by
  refine ⟨rfl, by decide, by decide⟩

/-- C7: every request encoder renders a non-empty currency list as a
`currencies` entry joining the codes with commas in list order; in
particular `[EUR, GBP]` renders as `EUR,GBP`. -/
theorem currencies_param_comma_join
    (rL : LatestRequest) (rC : CurrenciesRequest) (rH : HistoricalRequest)
    (hL : rL.Currencies ≠ []) (hC : rC.Currencies ≠ []) (hH : rH.Currencies ≠ []) :
    (rL.toParams.lookup "currencies" = some (String.intercalate "," rL.Currencies)
     ∧ rC.toParams.lookup "currencies" = some (String.intercalate "," rC.Currencies)
     ∧ rH.toParams.lookup "currencies" = some (String.intercalate "," rH.Currencies))
    ∧ (CurrenciesRequest.toParams ⟨["EUR", "GBP"]⟩).lookup "currencies"
      = some "EUR,GBP" := by
  refine ⟨⟨?_, ?_, ?_⟩, by decide⟩
  · exact lookup_currencies_tail rL.BaseCurrency rL.Currencies hL
  · have hlen : rC.Currencies.length > 0 := List.length_pos.mpr hC
    simp [CurrenciesRequest.toParams, hlen, List.lookup]
  · show List.lookup "currencies" (("date", rH.Date.format) :: _) = _
    rw [lookup_skip_date]
    exact lookup_currencies_tail rH.BaseCurrency rH.Currencies hH

/-- Witness for C7 on concrete two-element currency lists. -/
theorem currencies_param_comma_join_witness :
    ((LatestRequest.toParams ⟨"USD", ["EUR", "GBP"]⟩).lookup "currencies"
      = some (String.intercalate "," ["EUR", "GBP"])
     ∧ (CurrenciesRequest.toParams ⟨["EUR", "GBP"]⟩).lookup "currencies"
      = some (String.intercalate "," ["EUR", "GBP"])
     ∧ (HistoricalRequest.toParams ⟨⟨2022, 9, 4⟩, "USD", ["EUR", "GBP"]⟩).lookup
        "currencies" = some (String.intercalate "," ["EUR", "GBP"]))
    ∧ (CurrenciesRequest.toParams ⟨["EUR", "GBP"]⟩).lookup "currencies"
      = some "EUR,GBP" :=
  currencies_param_comma_join ⟨"USD", ["EUR", "GBP"]⟩ ⟨["EUR", "GBP"]⟩
    ⟨⟨2022, 9, 4⟩, "USD", ["EUR", "GBP"]⟩
    (by decide) (by decide) (by decide)

/-- C8: the latest and currencies encoders omit empty fields — an empty
base currency yields no `base_currency` entry, an empty currency list
yields no `currencies` entry, and fully unset requests encode to the
empty map. -/
theorem empty_fields_omitted_in_params
    (rL : LatestRequest) (rC : CurrenciesRequest) :
    (rL.BaseCurrency = "" → rL.toParams.lookup "base_currency" = none)
    ∧ (rL.Currencies = [] → rL.toParams.lookup "currencies" = none)
    ∧ (rC.Currencies = [] → rC.toParams.lookup "currencies" = none)
    ∧ LatestRequest.toParams ⟨"", []⟩ = []
    ∧ CurrenciesRequest.toParams ⟨[]⟩ = [] := by
  refine ⟨fun hb => ?_, fun hc => ?_, fun hc => ?_, rfl, rfl⟩
  · show List.lookup "base_currency"
      ((if rL.BaseCurrency ≠ "" then [("base_currency", rL.BaseCurrency)] else [])
        ++ _) = none
    rw [hb]
    by_cases hl : rL.Currencies.length > 0 <;> simp [hl, List.lookup]
  · show List.lookup "currencies"
      (_ ++ (if rL.Currencies.length > 0 then
        [("currencies", String.intercalate "," rL.Currencies)] else [])) = none
    rw [hc]
    by_cases hb : rL.BaseCurrency = "" <;> simp [hb, List.lookup]
  · show List.lookup "currencies" (if rC.Currencies.length > 0 then
      [("currencies", String.intercalate "," rC.Currencies)] else []) = none
    rw [hc]
    simp [List.lookup]

/-- Witness for C8 discharging each of the three emptiness hypotheses
at concrete requests. -/
theorem empty_fields_omitted_witness :
    (LatestRequest.toParams ⟨"", ["EUR"]⟩).lookup "base_currency" = none
    ∧ (LatestRequest.toParams ⟨"USD", []⟩).lookup "currencies" = none
    ∧ (CurrenciesRequest.toParams ⟨[]⟩).lookup "currencies" = none :=
  ⟨(empty_fields_omitted_in_params ⟨"", ["EUR"]⟩ ⟨[]⟩).1 rfl,
   (empty_fields_omitted_in_params ⟨"USD", []⟩ ⟨[]⟩).2.1 rfl,
   (empty_fields_omitted_in_params ⟨"", []⟩ ⟨[]⟩).2.2.1 rfl⟩

/-- C9: the historical mapping is total; on an empty data map it yields
the zero-valued public response with the nil rates map, because reading
the absent `""` key returns the map type's zero value. -/
theorem historical_empty_data_total (r : historicalResponse)
    (h : r.Data = []) :
    r.toHistoricalResponse = ⟨[]⟩ := by
  cases r with
  | mk Data => cases h; rfl

/-- Witness for C9 on the empty wire response. -/
theorem historical_empty_data_total_witness :
    historicalResponse.toHistoricalResponse ⟨[]⟩ = ⟨[]⟩ :=
  historical_empty_data_total ⟨[]⟩ rfl
